import Mathlib

/-!
# Verification of the fabrknt flow rebalancing program

Shallow embedding of the state-machine core of
`src/flow/programs/flow/src/lib.rs` (Anchor/Solana program `flow`):
the risk classifier `assess_risk`, the decision workflow
`create_rebalance_decision`, the approval gate `approve_rebalance`, and the
execution coordinator `execute_rebalance`, together with the account
structures and the error enumeration they use.

Modelling conventions:
* `Pubkey` is an abstract identity, modelled as `Nat`.
* Machine integers are modelled as `Nat` / `Int`.  The one place where
  overflow is semantically relevant to the program logic is the `u16`
  product `default_slippage_tolerance_bps * 2` (wrapped explicitly with
  `% 65536`, matching release-mode wrapping semantics) and the `u32`
  counter `rebalance_count`, whose increment the source performs with
  `checked_add(1).unwrap()` — modelled by `checked_add_u32`, with the
  `unwrap` failure surfaced as the distinguished error `FlowError.Abort`
  (a Rust run-time abort, not a member of the program's error enum).
* Cross-program invocations (Jupiter swap, Raydium liquidity CPIs) are
  external I/O; their outcomes are inputs to the embedding, collected in
  `VenueEnv`.  A CPI failure propagated by `?` is `FlowError.External`.
* Account mutation is modelled by explicit state passing.  Errors carry the
  account state as it stands at the point where the handler returns the
  error, so "no mutation on failure" is a provable statement rather than a
  by-construction triviality.
* `create_audit_log_internal` in the source only emits a diagnostic
  message and returns `Ok`; each handler's model returns the list of
  `AuditEvent` values for exactly the `create_audit_log_internal` calls it
  makes (event type, position reference, actor), so "emits event E" is the
  statement that E is in that list.
-/

/-- Account address / identity (`anchor_lang::prelude::Pubkey`), abstract. -/
abbrev Pubkey := Nat

/-- The `Clock` sysvar: slot and unix timestamp. -/
structure Clock where
  slot : Nat
  unix_timestamp : Int
deriving DecidableEq, Repr

/-- `enum DexType` from the source. -/
inductive DexType where
  | Raydium
  | Orca
  | Meteora
  | Unknown
deriving DecidableEq, Repr

/-- `enum PositionStatus` from the source. -/
inductive PositionStatus where
  | Active
  | Paused
  | Closed
  | Liquidated
deriving DecidableEq, Repr

/-- `enum ExecutionStatus` from the source. -/
inductive ExecutionStatus where
  | Pending
  | Executed
  | Failed
  | Rejected
  | Cancelled
deriving DecidableEq, Repr

/-- `enum RiskLevel` from the source. -/
inductive RiskLevel where
  | Low
  | Medium
  | High
  | Critical
deriving DecidableEq, Repr

/-- `enum AuditEventType` from the source (note: it has no
`DecisionProposed` variant). -/
inductive AuditEventType where
  | PositionCreated
  | PositionClosed
  | Rebalanced
  | FeesCollected
  | PaymentReceived
  | PolicyViolation
  | HumanApprovalRequired
  | HumanApprovalGranted
deriving DecidableEq, Repr

/-- `enum XLiquidityEngineError` from the source, plus two constructors for
failure modes that are not program errors: `External` for a cross-program
invocation failure propagated by `?`, and `Abort` for a Rust run-time
abort (the `unwrap()` on `checked_add`). -/
inductive FlowError where
  | InvalidPriceRange
  | ExceedsMaxPositionSize
  | ExceedsMaxTradeSize
  | PositionNotActive
  | RebalanceTooFrequent
  | InvalidExecutionStatus
  | HumanApprovalRequired
  | InvalidApprover
  | SlippageTooHigh
  | PaymentTooSmall
  | InvalidFacilitator
  | NoFeesToCollect
  | ApprovalNotRequired
  | External
  | Abort
deriving DecidableEq, Repr

/-- `struct LiquidityPosition` from the source. -/
structure LiquidityPosition where
  owner : Pubkey
  position_bump : Nat
  token_a : Pubkey
  token_b : Pubkey
  token_a_vault : Pubkey
  token_b_vault : Pubkey
  dex : DexType
  pool_address : Pubkey
  position_nft : Option Pubkey
  current_tick_lower : Int
  current_tick_upper : Int
  current_price_lower : Nat
  current_price_upper : Nat
  liquidity_amount : Nat
  total_fees_earned_a : Nat
  total_fees_earned_b : Nat
  total_value_locked : Nat
  last_rebalance_slot : Nat
  last_rebalance_timestamp : Int
  rebalance_count : Nat
  total_return_percentage : Int
  apy_estimate : Nat
  status : PositionStatus
  auto_rebalance_enabled : Bool
  min_rebalance_interval : Nat
  max_position_size : Nat
  max_single_trade : Nat
  allowed_dex_programs : List Pubkey
  created_at : Int
  updated_at : Int
deriving DecidableEq, Repr

/-- `struct RebalanceDecision` from the source. -/
structure RebalanceDecision where
  position : Pubkey
  decision_bump : Nat
  new_tick_lower : Int
  new_tick_upper : Int
  new_price_lower : Nat
  new_price_upper : Nat
  ai_model_version : String
  ai_model_hash : List Nat
  prediction_confidence : Nat
  market_sentiment_score : Int
  volatility_metric : Nat
  whale_activity_score : Nat
  on_chain_indicators : List Nat
  decision_reason : String
  risk_assessment : RiskLevel
  execution_status : ExecutionStatus
  execution_tx_signature : Option String
  execution_slippage : Option Nat
  jupiter_swap_transaction : Option String
  expected_output_amount : Option Nat
  requires_human_approval : Bool
  human_approver : Option Pubkey
  approval_timestamp : Option Int
  created_at : Int
  executed_at : Option Int
deriving DecidableEq, Repr

/-- `struct ProtocolConfig` from the source (fee/x402 strings kept
abstractly as their field types). -/
structure ProtocolConfig where
  authority : Pubkey
  config_bump : Nat
  performance_fee_bps : Nat
  protocol_fee_bps : Nat
  fee_recipient : Pubkey
  x402_facilitator : Option Pubkey
  x402_min_payment : Nat
  x402_api_base_url : String
  min_rebalance_interval : Nat
  max_rebalance_frequency : Nat
  default_slippage_tolerance_bps : Nat
  max_position_size : Nat
  max_single_trade_size : Nat
  require_human_approval_threshold : Nat
  default_ai_model_version : String
  ai_model_registry : List Pubkey
  audit_log_enabled : Bool
  compliance_mode : Nat
  created_at : Int
  updated_at : Int
deriving DecidableEq, Repr

/-- One call to `create_audit_log_internal`: event type, optional position
reference, actor.  The source helper only logs these via `msg!` and returns
`Ok`; the payload bytes are a diagnostic format string and are omitted. -/
structure AuditEvent where
  event_type : AuditEventType
  position : Option Pubkey
  user : Pubkey
deriving DecidableEq, Repr

/-- `fn assess_risk` from the source, verbatim thresholds. -/
def assess_risk (confidence : Nat) (sentiment : Int) (volatility : Nat) :
    RiskLevel :=
  if confidence < 5000 ∨ volatility > 8000 then
    RiskLevel.Critical
  else if confidence < 7000 ∨ volatility > 6000 ∨ sentiment < -5000 then
    RiskLevel.High
  else if confidence < 8500 ∨ volatility > 4000 then
    RiskLevel.Medium
  else
    RiskLevel.Low

/-- The risk classifier as the spec's words state it (section 4.2):
"confidence<5000 OR volatility>8000 → Critical; else confidence<7000 OR
volatility>6000 OR sentiment<−5000 → High; else confidence<8500 OR
volatility>4000 → Medium; else Low".  Stated independently of
`assess_risk` so the two can be compared. -/
def spec_classify (confidence : Nat) (sentiment : Int) (volatility : Nat) :
    RiskLevel :=
  if confidence < 5000 ∨ volatility > 8000 then
    RiskLevel.Critical
  else if confidence < 7000 ∨ volatility > 6000 ∨ sentiment < -5000 then
    RiskLevel.High
  else if confidence < 8500 ∨ volatility > 4000 then
    RiskLevel.Medium
  else
    RiskLevel.Low

/-- `fn calculate_swap_requirements` from the source: the price-range move
exceeds 10% of the current lower price.  `u128` arithmetic; the branch on
the comparison makes the `Nat` subtraction exact. -/
def calculate_swap_requirements (position : LiquidityPosition)
    (decision : RebalanceDecision) : Bool :=
  let price_range_change :=
    if decision.new_price_lower > position.current_price_lower then
      decision.new_price_lower - position.current_price_lower
    else
      position.current_price_lower - decision.new_price_lower
  price_range_change > position.current_price_lower / 10

/-- `u32::checked_add`: `none` exactly when the sum would leave `u32`. -/
def checked_add_u32 (a b : Nat) : Option Nat :=
  if a + b < 4294967296 then some (a + b) else none

/-- Handler `create_rebalance_decision` from the source.  The position is
only read (no field of it is assigned), so the model consumes it immutably
and returns the freshly initialised decision together with the audit
events the handler records — the source handler makes no
`create_audit_log_internal` call, so that list is `[]`. -/
def create_rebalance_decision (position : LiquidityPosition)
    (config : ProtocolConfig) (clock : Clock) (position_key : Pubkey)
    (decision_bump : Nat)
    (new_tick_lower new_tick_upper : Int)
    (new_price_lower new_price_upper : Nat)
    (ai_model_version : String) (ai_model_hash : List Nat)
    (prediction_confidence : Nat) (market_sentiment_score : Int)
    (volatility_metric : Nat) (whale_activity_score : Nat)
    (decision_reason : String)
    (jupiter_swap_transaction : Option String)
    (expected_output_amount : Option Nat) :
    Except FlowError (RebalanceDecision × List AuditEvent) :=
  if ¬ position.status = PositionStatus.Active then
    Except.error FlowError.PositionNotActive
  else if ¬ (clock.unix_timestamp - position.last_rebalance_timestamp ≥
      (position.min_rebalance_interval : Int)) then
    Except.error FlowError.RebalanceTooFrequent
  else if ¬ new_tick_lower < new_tick_upper then
    Except.error FlowError.InvalidPriceRange
  else if ¬ new_price_lower < new_price_upper then
    Except.error FlowError.InvalidPriceRange
  else
    let risk_assessment :=
      assess_risk prediction_confidence market_sentiment_score
        volatility_metric
    let requires_human_approval :=
      risk_assessment = RiskLevel.Critical ∨
      risk_assessment = RiskLevel.High ∨
      position.total_value_locked ≥ config.require_human_approval_threshold
    Except.ok
      ({ position := position_key
         decision_bump := decision_bump
         new_tick_lower := new_tick_lower
         new_tick_upper := new_tick_upper
         new_price_lower := new_price_lower
         new_price_upper := new_price_upper
         ai_model_version := ai_model_version
         ai_model_hash := ai_model_hash
         prediction_confidence := prediction_confidence
         market_sentiment_score := market_sentiment_score
         volatility_metric := volatility_metric
         whale_activity_score := whale_activity_score
         on_chain_indicators := []
         decision_reason := decision_reason
         risk_assessment := risk_assessment
         execution_status :=
           if requires_human_approval then ExecutionStatus.Pending
           else ExecutionStatus.Pending
         execution_tx_signature := none
         execution_slippage := none
         jupiter_swap_transaction := jupiter_swap_transaction
         expected_output_amount := expected_output_amount
         requires_human_approval := decide requires_human_approval
         human_approver := none
         approval_timestamp := none
         created_at := clock.unix_timestamp
         executed_at := none }, [])

/-- Handler `approve_rebalance` from the source.  Errors carry the decision
as it stands when the handler returns (unchanged: both `require!`s precede
any assignment).  On success the approver and timestamp are (over)written
and a `HumanApprovalGranted` audit record is made. -/
def approve_rebalance (decision : RebalanceDecision)
    (approver_key : Pubkey) (clock : Clock) :
    Except (FlowError × RebalanceDecision)
      (RebalanceDecision × List AuditEvent) :=
  if ¬ decision.requires_human_approval = true then
    Except.error (FlowError.ApprovalNotRequired, decision)
  else if ¬ decision.execution_status = ExecutionStatus.Pending then
    Except.error (FlowError.InvalidExecutionStatus, decision)
  else
    Except.ok
      ({ decision with
          human_approver := some approver_key
          approval_timestamp := some clock.unix_timestamp },
        [{ event_type := AuditEventType.HumanApprovalGranted
           position := some decision.position
           user := approver_key }])

/-- Result of `execute_jupiter_swap` (`struct JupiterSwapResult`). -/
structure JupiterSwapResult where
  executed : Bool
  actual_slippage_bps : Option Nat
  actual_amount_out : Option Nat
deriving DecidableEq, Repr

/-- Failure modes the venue helpers can raise: `invalidFacilitator` for the
program-id `require!` inside `execute_jupiter_swap`, `cpiFailure` for an
`invoke` error propagated by `?`. -/
inductive VenueFailure where
  | invalidFacilitator
  | cpiFailure
deriving DecidableEq, Repr

/-- The program error a venue failure surfaces as. -/
def VenueFailure.toError : VenueFailure → FlowError
  | VenueFailure.invalidFacilitator => FlowError.InvalidFacilitator
  | VenueFailure.cpiFailure => FlowError.External

/-- Outcomes of the external cross-program calls made by
`execute_rebalance`; these are inputs of the embedding (external I/O).
`raydiumAccountsProvided` abstracts "the optional Raydium program, position
and pool-state accounts are all supplied (with the valid program id)";
when it is false the Raydium helpers skip their CPIs and return `Ok`.
`raydiumDecreaseOk` / `raydiumIncreaseOk` are the outcomes of the
decrease/increase-liquidity CPIs when they are actually invoked. -/
structure VenueEnv where
  jupiterSwap : Except VenueFailure JupiterSwapResult
  raydiumAccountsProvided : Bool
  raydiumDecreaseOk : Bool
  raydiumIncreaseOk : Bool
deriving Repr

/-- The three `execute_rebalance` precondition blocks concerning human
approval, in source order: if `requires_human_approval`, first
`require!(human_approver.is_some())` (`HumanApprovalRequired`), then the
match on the optional `approver` account — absent gives
`HumanApprovalRequired`, present-but-different gives `InvalidApprover`. -/
def exec_approval_check (decision : RebalanceDecision)
    (approver : Option Pubkey) : Option FlowError :=
  if decision.requires_human_approval then
    match decision.human_approver, approver with
    | none, _ => some FlowError.HumanApprovalRequired
    | some _, none => some FlowError.HumanApprovalRequired
    | some h, some a =>
        if h = a then none else some FlowError.InvalidApprover
  else
    none

/-- The slippage-tolerance bound of `execute_rebalance`:
`slippage_tolerance_bps <= config.default_slippage_tolerance_bps * 2`,
where the product is `u16` arithmetic (wrapped at `2^16`). -/
def exec_slippage_check (config : ProtocolConfig)
    (slippage_tolerance_bps : Nat) : Option FlowError :=
  if slippage_tolerance_bps ≤
      config.default_slippage_tolerance_bps * 2 % 65536 then
    none
  else
    some FlowError.SlippageTooHigh

/-- All preconditions of `execute_rebalance`, in source order: decision
status must be `Pending`, then the approval block, then the slippage
bound.  These all precede any account mutation in the handler. -/
def exec_precheck (decision : RebalanceDecision) (config : ProtocolConfig)
    (slippage_tolerance_bps : Nat) (approver : Option Pubkey) :
    Option FlowError :=
  if decision.execution_status = ExecutionStatus.Pending then
    match exec_approval_check decision approver with
    | some e => some e
    | none => exec_slippage_check config slippage_tolerance_bps
  else
    some FlowError.InvalidExecutionStatus

/-- The swap section of `execute_rebalance`.  When a swap is required:
with a stored Jupiter transaction the handler merely records the supplied
execution signature; otherwise it re-checks the slippage bound, runs the
legacy Jupiter CPI (outcome from `env`), and if the CPI reports an actual
slippage it persists it into the decision before requiring it to be within
tolerance — so a `SlippageTooHigh` error from this branch carries the
decision with `execution_slippage` already set. -/
def exec_swap_phase (position : LiquidityPosition)
    (decision : RebalanceDecision) (config : ProtocolConfig)
    (slippage_tolerance_bps : Nat)
    (swap_execution_signature : Option String) (env : VenueEnv) :
    Except (FlowError × RebalanceDecision) RebalanceDecision :=
  if calculate_swap_requirements position decision then
    if decision.jupiter_swap_transaction.isSome then
      match swap_execution_signature with
      | some sig =>
          Except.ok { decision with execution_tx_signature := some sig }
      | none => Except.ok decision
    else
      if ¬ slippage_tolerance_bps ≤
          config.default_slippage_tolerance_bps * 2 % 65536 then
        Except.error (FlowError.SlippageTooHigh, decision)
      else
        match env.jupiterSwap with
        | Except.error f => Except.error (f.toError, decision)
        | Except.ok result =>
            match result.actual_slippage_bps with
            | some actual_slippage =>
                if actual_slippage ≤ slippage_tolerance_bps then
                  Except.ok
                    { decision with
                        execution_slippage := some actual_slippage }
                else
                  Except.error (FlowError.SlippageTooHigh,
                    { decision with
                        execution_slippage := some actual_slippage })
            | none => Except.ok decision
  else
    Except.ok decision

/-- The Raydium section of `execute_rebalance`: attempted only for a
Raydium position with the Raydium accounts supplied.  Both helpers use
the optional `approver` account as the owner signer and skip their CPI
(returning `Ok`) when it is absent; the decrease CPI runs only when the
position holds liquidity, the increase CPI always runs. -/
def exec_raydium_phase (position : LiquidityPosition)
    (approver : Option Pubkey) (env : VenueEnv) : Option FlowError :=
  if position.dex = DexType.Raydium then
    if env.raydiumAccountsProvided then
      match approver with
      | none => none
      | some _ =>
          if position.liquidity_amount > 0 ∧ ¬ env.raydiumDecreaseOk then
            some FlowError.External
          else if ¬ env.raydiumIncreaseOk then
            some FlowError.External
          else
            none
    else
      none
  else
    none

/-- The commit block of `execute_rebalance`: the position adopts the
decision's range, the rebalance slot/timestamp become `now`, the counter
is bumped with `checked_add(1).unwrap()` (an `unwrap` failure aborts —
`FlowError.Abort` — after the range and timestamps were already
assigned), the decision becomes `Executed` with `executed_at = now`, and
a `Rebalanced` audit record is made. -/
def exec_commit (position : LiquidityPosition)
    (decision : RebalanceDecision) (clock : Clock)
    (position_key : Pubkey) :
    Except (FlowError × LiquidityPosition × RebalanceDecision)
      (LiquidityPosition × RebalanceDecision × List AuditEvent) :=
  let position1 :=
    { position with
        current_tick_lower := decision.new_tick_lower
        current_tick_upper := decision.new_tick_upper
        current_price_lower := decision.new_price_lower
        current_price_upper := decision.new_price_upper
        last_rebalance_slot := clock.slot
        last_rebalance_timestamp := clock.unix_timestamp }
  match checked_add_u32 position.rebalance_count 1 with
  | none => Except.error (FlowError.Abort, position1, decision)
  | some c =>
      Except.ok
        ({ position1 with
            rebalance_count := c
            updated_at := clock.unix_timestamp },
          { decision with
              execution_status := ExecutionStatus.Executed
              executed_at := some clock.unix_timestamp },
          [{ event_type := AuditEventType.Rebalanced
             position := some position_key
             user := position.owner }])

/-- Handler `execute_rebalance` from the source: prechecks, swap section,
Raydium section, then the commit.  Errors carry the position and decision
as they stand at the point of failure. -/
def execute_rebalance (position : LiquidityPosition)
    (decision : RebalanceDecision) (config : ProtocolConfig)
    (clock : Clock) (position_key : Pubkey)
    (slippage_tolerance_bps : Nat) (approver : Option Pubkey)
    (swap_execution_signature : Option String) (env : VenueEnv) :
    Except (FlowError × LiquidityPosition × RebalanceDecision)
      (LiquidityPosition × RebalanceDecision × List AuditEvent) :=
  match exec_precheck decision config slippage_tolerance_bps approver with
  | some e => Except.error (e, position, decision)
  | none =>
      match exec_swap_phase position decision config
          slippage_tolerance_bps swap_execution_signature env with
      | Except.error (e, decision1) =>
          Except.error (e, position, decision1)
      | Except.ok decision1 =>
          match exec_raydium_phase position approver env with
          | some e => Except.error (e, position, decision1)
          | none => exec_commit position decision1 clock position_key

/-! ## Concrete fixtures used by witnesses and counterexamples -/

/-- Empty text used to fill the free-text fields of fixtures. -/
def emptyText : String := ""

/-- A plain active Orca position: no prior rebalance, no locked value. -/
def basePosition : LiquidityPosition :=
  { owner := 1
    position_bump := 0
    token_a := 2
    token_b := 3
    token_a_vault := 4
    token_b_vault := 5
    dex := DexType.Orca
    pool_address := 6
    position_nft := none
    current_tick_lower := -100
    current_tick_upper := 100
    current_price_lower := 1000
    current_price_upper := 2000
    liquidity_amount := 0
    total_fees_earned_a := 0
    total_fees_earned_b := 0
    total_value_locked := 0
    last_rebalance_slot := 0
    last_rebalance_timestamp := 0
    rebalance_count := 0
    total_return_percentage := 0
    apy_estimate := 0
    status := PositionStatus.Active
    auto_rebalance_enabled := true
    min_rebalance_interval := 3600
    max_position_size := 1000000
    max_single_trade := 100000
    allowed_dex_programs := [6]
    created_at := 0
    updated_at := 0 }

/-- A protocol config with a 50 bps default slippage tolerance and a
500000 human-approval threshold. -/
def baseConfig : ProtocolConfig :=
  { authority := 9
    config_bump := 0
    performance_fee_bps := 100
    protocol_fee_bps := 10
    fee_recipient := 9
    x402_facilitator := none
    x402_min_payment := 0
    x402_api_base_url := emptyText
    min_rebalance_interval := 3600
    max_rebalance_frequency := 10
    default_slippage_tolerance_bps := 50
    max_position_size := 10000000
    max_single_trade_size := 1000000
    require_human_approval_threshold := 500000
    default_ai_model_version := emptyText
    ai_model_registry := []
    audit_log_enabled := true
    compliance_mode := 0
    created_at := 0
    updated_at := 0 }

/-- A clock strictly past `basePosition`'s rebalance interval. -/
def baseClock : Clock := { slot := 500, unix_timestamp := 100000 }

/-- A pending low-risk decision whose new range is within 10% of
`basePosition`'s current lower price (so no swap is required) and which
does not require human approval. -/
def baseDecision : RebalanceDecision :=
  { position := 7
    decision_bump := 0
    new_tick_lower := -50
    new_tick_upper := 50
    new_price_lower := 1050
    new_price_upper := 1900
    ai_model_version := emptyText
    ai_model_hash := []
    prediction_confidence := 9000
    market_sentiment_score := 0
    volatility_metric := 0
    whale_activity_score := 0
    on_chain_indicators := []
    decision_reason := emptyText
    risk_assessment := RiskLevel.Low
    execution_status := ExecutionStatus.Pending
    execution_tx_signature := none
    execution_slippage := none
    jupiter_swap_transaction := none
    expected_output_amount := none
    requires_human_approval := false
    human_approver := none
    approval_timestamp := none
    created_at := 0
    executed_at := none }

/-- A venue environment in which no external call is attempted and every
external call that would be attempted succeeds. -/
def benignEnv : VenueEnv :=
  { jupiterSwap :=
      Except.ok
        { executed := false
          actual_slippage_bps := none
          actual_amount_out := none }
    raydiumAccountsProvided := false
    raydiumDecreaseOk := true
    raydiumIncreaseOk := true }

/-! ## Shared inversion lemmas -/

/-- A successful `create_rebalance_decision` implies its guards all
passed, and pins down the produced decision and (empty) audit list. -/
theorem create_rebalance_decision_ok_inv
    {position : LiquidityPosition} {config : ProtocolConfig}
    {clock : Clock} {position_key : Pubkey} {decision_bump : Nat}
    {ntl ntu : Int} {npl npu : Nat} {ver : String} {hash : List Nat}
    {conf : Nat} {sent : Int} {vol whale : Nat} {reason : String}
    {jup : Option String} {expOut : Option Nat}
    {d : RebalanceDecision} {evs : List AuditEvent}
    (h : create_rebalance_decision position config clock position_key
      decision_bump ntl ntu npl npu ver hash conf sent vol whale reason
      jup expOut = Except.ok (d, evs)) :
    position.status = PositionStatus.Active ∧
    (position.min_rebalance_interval : Int) ≤
      clock.unix_timestamp - position.last_rebalance_timestamp ∧
    ntl < ntu ∧ npl < npu ∧
    d.risk_assessment = assess_risk conf sent vol ∧
    d.requires_human_approval =
      decide (assess_risk conf sent vol = RiskLevel.Critical ∨
        assess_risk conf sent vol = RiskLevel.High ∨
        position.total_value_locked ≥
          config.require_human_approval_threshold) ∧
    evs = [] := by
  unfold create_rebalance_decision at h
  split at h
  · exact Except.noConfusion h
  · rename_i h2
    split at h
    · exact Except.noConfusion h
    · rename_i h3
      split at h
      · exact Except.noConfusion h
      · rename_i h4
        split at h
        · exact Except.noConfusion h
        · rename_i h5
          injection h with h
          injection h with hd hevs
          subst hd
          subst hevs
          push_neg at h2 h3 h4 h5
          exact ⟨h2, ge_iff_le.mp h3, h4, h5, rfl, rfl, rfl⟩

/-- `create_rebalance_decision` succeeds when all three validations pass,
and cannot fail the rate limit when the interval has elapsed. -/
theorem create_rebalance_decision_guards
    (position : LiquidityPosition) (config : ProtocolConfig)
    (clock : Clock) (position_key : Pubkey) (decision_bump : Nat)
    (ntl ntu : Int) (npl npu : Nat) (ver : String) (hash : List Nat)
    (conf : Nat) (sent : Int) (vol whale : Nat) (reason : String)
    (jup : Option String) (expOut : Option Nat)
    (hact : position.status = PositionStatus.Active)
    (hint : (position.min_rebalance_interval : Int) ≤
      clock.unix_timestamp - position.last_rebalance_timestamp) :
    create_rebalance_decision position config clock position_key
        decision_bump ntl ntu npl npu ver hash conf sent vol whale reason
        jup expOut ≠ Except.error FlowError.RebalanceTooFrequent ∧
    (ntl < ntu → npl < npu →
      ∃ d, create_rebalance_decision position config clock position_key
        decision_bump ntl ntu npl npu ver hash conf sent vol whale reason
        jup expOut = Except.ok (d, [])) := by
  unfold create_rebalance_decision
  rw [if_neg (by simp [hact]), if_neg (by simp [ge_iff_le, hint])]
  constructor
  · split
    · intro hcontra; injection hcontra with hcontra
      exact FlowError.noConfusion hcontra
    · split
      · intro hcontra; injection hcontra with hcontra
        exact FlowError.noConfusion hcontra
      · intro hcontra; exact Except.noConfusion hcontra
  · intro ht hp
    rw [if_neg (by simp [ht]), if_neg (by simp [hp])]
    exact ⟨_, rfl⟩

/-- The swap section only ever writes `execution_tx_signature` or
`execution_slippage`: on success every other field of the decision is
unchanged. -/
theorem exec_swap_phase_ok_fields
    {position : LiquidityPosition} {decision : RebalanceDecision}
    {config : ProtocolConfig} {slip : Nat} {sig : Option String}
    {env : VenueEnv} {d1 : RebalanceDecision}
    (h : exec_swap_phase position decision config slip sig env =
      Except.ok d1) :
    d1.new_tick_lower = decision.new_tick_lower ∧
    d1.new_tick_upper = decision.new_tick_upper ∧
    d1.new_price_lower = decision.new_price_lower ∧
    d1.new_price_upper = decision.new_price_upper ∧
    d1.requires_human_approval = decision.requires_human_approval ∧
    d1.execution_status = decision.execution_status ∧
    d1.human_approver = decision.human_approver ∧
    d1.executed_at = decision.executed_at := by
  unfold exec_swap_phase at h
  repeat' split at h
  all_goals
    first
    | exact Except.noConfusion h
    | (injection h with h; subst h; exact ⟨rfl, rfl, rfl, rfl, rfl, rfl, rfl, rfl⟩)

/-- The swap section only ever writes `execution_tx_signature` or
`execution_slippage`: on failure the decision carried with the error
agrees with the input on every other field. -/
theorem exec_swap_phase_error_fields
    {position : LiquidityPosition} {decision : RebalanceDecision}
    {config : ProtocolConfig} {slip : Nat} {sig : Option String}
    {env : VenueEnv} {e : FlowError} {d1 : RebalanceDecision}
    (h : exec_swap_phase position decision config slip sig env =
      Except.error (e, d1)) :
    d1.new_tick_lower = decision.new_tick_lower ∧
    d1.new_tick_upper = decision.new_tick_upper ∧
    d1.new_price_lower = decision.new_price_lower ∧
    d1.new_price_upper = decision.new_price_upper ∧
    d1.requires_human_approval = decision.requires_human_approval ∧
    d1.execution_status = decision.execution_status ∧
    d1.human_approver = decision.human_approver ∧
    d1.executed_at = decision.executed_at := by
  unfold exec_swap_phase at h
  repeat' split at h
  all_goals
    first
    | exact Except.noConfusion h
    | (injection h with h; injection h with he h; subst h;
        exact ⟨rfl, rfl, rfl, rfl, rfl, rfl, rfl, rfl⟩)

/-- Passing the precheck means: the decision is `Pending`, the approval
block raised nothing, and the slippage bound holds. -/
theorem exec_precheck_none_inv {decision : RebalanceDecision}
    {config : ProtocolConfig} {slip : Nat} {approver : Option Pubkey}
    (h : exec_precheck decision config slip approver = none) :
    decision.execution_status = ExecutionStatus.Pending ∧
    exec_approval_check decision approver = none ∧
    slip ≤ config.default_slippage_tolerance_bps * 2 % 65536 := by
  unfold exec_precheck at h
  split at h
  · rename_i hpend
    split at h
    · exact Option.noConfusion h
    · rename_i happ
      refine ⟨hpend, happ, ?_⟩
      unfold exec_slippage_check at h
      split at h
      · assumption
      · exact Option.noConfusion h
  · exact Option.noConfusion h

/-- Full inversion of a successful `execute_rebalance`: the decision was
`Pending`, the counter did not saturate, and the returned states are
exactly the commit's writes — the position adopts the decision's range,
both rebalance stamps become `now`, the counter is bumped by one, the
decision becomes `Executed` at `now` (its approval-requirement flag
untouched), and one `Rebalanced` audit record is made. -/
theorem execute_rebalance_ok_inv
    {position : LiquidityPosition} {decision : RebalanceDecision}
    {config : ProtocolConfig} {clock : Clock} {position_key : Pubkey}
    {slip : Nat} {approver : Option Pubkey} {sig : Option String}
    {env : VenueEnv} {pos' : LiquidityPosition}
    {dec' : RebalanceDecision} {evs : List AuditEvent}
    (h : execute_rebalance position decision config clock position_key
      slip approver sig env = Except.ok (pos', dec', evs)) :
    decision.execution_status = ExecutionStatus.Pending ∧
    pos'.current_tick_lower = decision.new_tick_lower ∧
    pos'.current_tick_upper = decision.new_tick_upper ∧
    pos'.current_price_lower = decision.new_price_lower ∧
    pos'.current_price_upper = decision.new_price_upper ∧
    pos'.last_rebalance_slot = clock.slot ∧
    pos'.last_rebalance_timestamp = clock.unix_timestamp ∧
    pos'.updated_at = clock.unix_timestamp ∧
    pos'.rebalance_count = position.rebalance_count + 1 ∧
    position.rebalance_count + 1 < 4294967296 ∧
    dec'.execution_status = ExecutionStatus.Executed ∧
    dec'.executed_at = some clock.unix_timestamp ∧
    dec'.requires_human_approval = decision.requires_human_approval ∧
    evs = [{ event_type := AuditEventType.Rebalanced
             position := some position_key
             user := position.owner }] := by
  unfold execute_rebalance at h
  split at h
  · exact Except.noConfusion h
  · rename_i hpre
    split at h
    · exact Except.noConfusion h
    · rename_i d1 hswap
      split at h
      · exact Except.noConfusion h
      · have hfields := exec_swap_phase_ok_fields hswap
        unfold exec_commit at h
        split at h
        · exact Except.noConfusion h
        · rename_i c hc
          unfold checked_add_u32 at hc
          split at hc
          · rename_i hlt
            injection hc with hc
            subst hc
            injection h with h
            injection h with hp h
            injection h with hd hevs
            subst hp
            subst hd
            subst hevs
            exact ⟨(exec_precheck_none_inv hpre).1, hfields.1,
              hfields.2.1, hfields.2.2.1, hfields.2.2.2.1, rfl, rfl, rfl,
              rfl, hlt, rfl, rfl, hfields.2.2.2.2.1, rfl⟩
          · exact Option.noConfusion hc

/-- A failing `execute_rebalance` never changes the decision's
`requires_human_approval` flag: whatever state the error carries agrees
with the input decision on that field. -/
theorem execute_rebalance_error_requires
    {position : LiquidityPosition} {decision : RebalanceDecision}
    {config : ProtocolConfig} {clock : Clock} {position_key : Pubkey}
    {slip : Nat} {approver : Option Pubkey} {sig : Option String}
    {env : VenueEnv} {e : FlowError} {p' : LiquidityPosition}
    {d' : RebalanceDecision}
    (h : execute_rebalance position decision config clock position_key
      slip approver sig env = Except.error (e, p', d')) :
    d'.requires_human_approval = decision.requires_human_approval := by
  unfold execute_rebalance at h
  split at h
  · injection h with h
    injection h with he h
    injection h with hp hd
    subst hd
    rfl
  · split at h
    · rename_i e0 d1 hswap
      injection h with h
      injection h with he h
      injection h with hp hd
      subst hd
      exact (exec_swap_phase_error_fields hswap).2.2.2.2.1
    · rename_i d1 hswap
      have hfields := exec_swap_phase_ok_fields hswap
      split at h
      · injection h with h
        injection h with he h
        injection h with hp hd
        subst hd
        exact hfields.2.2.2.2.1
      · unfold exec_commit at h
        split at h
        · injection h with h
          injection h with he h
          injection h with hp hd
          subst hd
          exact hfields.2.2.2.2.1
        · exact Except.noConfusion h

/-! ## Claim C1 -/

/-- C1: for every input triple, `assess_risk` returns exactly the tier the
spec's thresholds give (Critical if confidence<5000 or volatility>8000;
else High if confidence<7000 or volatility>6000 or sentiment<-5000; else
Medium if confidence<8500 or volatility>4000; else Low) — in particular
on the whole declared ranges — and the two boundary cases hold:
classify(4000,0,0)=Critical, classify(9000,0,0)=Low. -/
theorem c1_classify_matches_spec_thresholds :
    (∀ confidence sentiment volatility,
      assess_risk confidence sentiment volatility =
        spec_classify confidence sentiment volatility) ∧
    assess_risk 4000 0 0 = RiskLevel.Critical ∧
    assess_risk 9000 0 0 = RiskLevel.Low :=
  ⟨fun _ _ _ => rfl, by decide, by decide⟩

/-! ## Claim C2 -/

/-- A decision that already carries a recorded approver (key 7, at time
50) and is still `Pending`. -/
def c2Decision : RebalanceDecision :=
  { baseDecision with
      requires_human_approval := true
      human_approver := some 7
      approval_timestamp := some 50 }

/-- C2 counterexample: on a decision whose approver is already recorded,
a second `approve_rebalance` does NOT fail with an AlreadyApproved error
(the source has no such check and no such error variant): it succeeds and
overwrites both the recorded approver identity and the approval
timestamp. -/
theorem c2_counterexample :
    approve_rebalance c2Decision 9 baseClock =
      Except.ok
        ({ c2Decision with
            human_approver := some 9
            approval_timestamp := some 100000 },
          [{ event_type := AuditEventType.HumanApprovalGranted
             position := some 7
             user := 9 }]) := rfl

/-- C2 amended: `approve_rebalance` only checks that approval is required
and that the decision is `Pending`; under those two conditions it always
succeeds — even when an approver is already recorded — and (over)writes
the approver identity and approval timestamp with the caller's values, so
re-approval is possible. -/
theorem c2_amended_reapprove_overwrites (d : RebalanceDecision)
    (k : Pubkey) (clk : Clock)
    (h1 : d.requires_human_approval = true)
    (h2 : d.execution_status = ExecutionStatus.Pending) :
    approve_rebalance d k clk =
      Except.ok
        ({ d with
            human_approver := some k
            approval_timestamp := some clk.unix_timestamp },
          [{ event_type := AuditEventType.HumanApprovalGranted
             position := some d.position
             user := k }]) := by
  unfold approve_rebalance
  rw [if_neg (by simp [h1]), if_neg (by simp [h2])]

/-- C2 amended, witness: the amended statement applied to the concrete
already-approved decision `c2Decision` and a fresh approver key 12. -/
theorem c2_amended_witness :
    approve_rebalance c2Decision 12 baseClock =
      Except.ok
        ({ c2Decision with
            human_approver := some 12
            approval_timestamp := some (100000 : Int) },
          [{ event_type := AuditEventType.HumanApprovalGranted
             position := some c2Decision.position
             user := 12 }]) :=
  c2_amended_reapprove_overwrites c2Decision 12 baseClock rfl rfl

/-! ## Claim C9 -/

/-- C9 counterexample: a successful `create_rebalance_decision` records no
audit event at all — its audit list is empty (the source handler makes no
`create_audit_log_internal` call; it only emits a diagnostic message, and
`AuditEventType` has no DecisionProposed variant), so no DecisionProposed
audit event is emitted. -/
theorem c9_counterexample :
    Except.map (fun out => out.2)
      (create_rebalance_decision basePosition baseConfig baseClock 7 0
        (-50) 50 1050 1900 emptyText [] 9000 0 0 0 emptyText none none) =
      Except.ok ([] : List AuditEvent) := rfl

/-- C9 amended: every successful propose records NO audit event — the
proposal is logged only informally (a diagnostic message); in particular
no DecisionProposed audit record exists. -/
theorem c9_amended_propose_emits_no_audit_event
    (position : LiquidityPosition) (config : ProtocolConfig)
    (clock : Clock) (position_key : Pubkey) (decision_bump : Nat)
    (ntl ntu : Int) (npl npu : Nat) (ver : String) (hash : List Nat)
    (conf : Nat) (sent : Int) (vol whale : Nat) (reason : String)
    (jup : Option String) (expOut : Option Nat)
    (d : RebalanceDecision) (evs : List AuditEvent)
    (h : create_rebalance_decision position config clock position_key
      decision_bump ntl ntu npl npu ver hash conf sent vol whale reason
      jup expOut = Except.ok (d, evs)) :
    evs = [] :=
  (create_rebalance_decision_ok_inv h).2.2.2.2.2.2

/-- C9 amended, witness: the amended statement applied to a concrete
successful propose. -/
theorem c9_amended_witness :
    create_rebalance_decision basePosition baseConfig baseClock 7 0 (-50)
        50 1050 1900 emptyText [] 9000 0 0 0 emptyText none none =
      Except.ok ({ baseDecision with created_at := 100000 },
        ([] : List AuditEvent)) ∧
    ([] : List AuditEvent) = [] :=
  by
  have h : create_rebalance_decision basePosition baseConfig baseClock 7 0
      (-50) 50 1050 1900 emptyText [] 9000 0 0 0 emptyText none none =
      Except.ok ({ baseDecision with created_at := 100000 },
        ([] : List AuditEvent)) := rfl
  exact ⟨h, c9_amended_propose_emits_no_audit_event basePosition
    baseConfig baseClock 7 0 (-50) 50 1050 1900 emptyText [] 9000 0 0 0
    emptyText none none _ _ h⟩

/-! ## Claim C3 -/

/-- C3: a decision created by a successful propose requires human
approval exactly when its computed risk tier is High or Critical or the
position's locked value reaches the config threshold; in particular a
High or Critical tier forces `requires_human_approval = true` regardless
of position size. -/
theorem c3_requires_approval_iff
    (position : LiquidityPosition) (config : ProtocolConfig)
    (clock : Clock) (position_key : Pubkey) (decision_bump : Nat)
    (ntl ntu : Int) (npl npu : Nat) (ver : String) (hash : List Nat)
    (conf : Nat) (sent : Int) (vol whale : Nat) (reason : String)
    (jup : Option String) (expOut : Option Nat)
    (d : RebalanceDecision) (evs : List AuditEvent)
    (h : create_rebalance_decision position config clock position_key
      decision_bump ntl ntu npl npu ver hash conf sent vol whale reason
      jup expOut = Except.ok (d, evs)) :
    d.risk_assessment = assess_risk conf sent vol ∧
    (d.requires_human_approval = true ↔
      (d.risk_assessment = RiskLevel.High ∨
       d.risk_assessment = RiskLevel.Critical ∨
       config.require_human_approval_threshold ≤
         position.total_value_locked)) ∧
    ((d.risk_assessment = RiskLevel.High ∨
      d.risk_assessment = RiskLevel.Critical) →
      d.requires_human_approval = true) := by
  obtain ⟨-, -, -, -, hrisk, hreq, -⟩ := create_rebalance_decision_ok_inv h
  have hiff : d.requires_human_approval = true ↔
      (d.risk_assessment = RiskLevel.High ∨
       d.risk_assessment = RiskLevel.Critical ∨
       config.require_human_approval_threshold ≤
         position.total_value_locked) := by
    rw [hreq, hrisk]
    simp only [decide_eq_true_eq, ge_iff_le]
    tauto
  exact ⟨hrisk, hiff, fun hh => hiff.mpr (by tauto)⟩

/-- The decision a propose with confidence 6000 (tier High) produces on
the small position `basePosition`. -/
def c3Decision : RebalanceDecision :=
  { baseDecision with
      prediction_confidence := 6000
      risk_assessment := RiskLevel.High
      requires_human_approval := true
      created_at := 100000 }

/-- C3 witness: a concrete propose with tier High on a position far below
the value threshold still sets `requires_human_approval = true`. -/
theorem c3_witness :
    create_rebalance_decision basePosition baseConfig baseClock 7 0 (-50)
        50 1050 1900 emptyText [] 6000 0 0 0 emptyText none none =
      Except.ok (c3Decision, ([] : List AuditEvent)) ∧
    c3Decision.requires_human_approval = true := by
  have h : create_rebalance_decision basePosition baseConfig baseClock 7 0
      (-50) 50 1050 1900 emptyText [] 6000 0 0 0 emptyText none none =
      Except.ok (c3Decision, ([] : List AuditEvent)) := rfl
  exact ⟨h, (c3_requires_approval_iff basePosition baseConfig baseClock 7
    0 (-50) 50 1050 1900 emptyText [] 6000 0 0 0 emptyText none none _ _
    h).2.2 (Or.inl rfl)⟩

/-! ## Claim C4 -/

/-- C4: `create_rebalance_decision` checks its preconditions in a fixed
order with the first failure winning: a non-Active position fails
PositionNotActive; otherwise an elapsed time below the position's
rebalance interval fails RebalanceTooFrequent (the spec's RateLimited);
otherwise a non-increasing tick or price range fails InvalidPriceRange
(the spec's InvalidRange); only with all three satisfied is a decision
created. -/
theorem c4_propose_precondition_order
    (position : LiquidityPosition) (config : ProtocolConfig)
    (clock : Clock) (position_key : Pubkey) (decision_bump : Nat)
    (ntl ntu : Int) (npl npu : Nat) (ver : String) (hash : List Nat)
    (conf : Nat) (sent : Int) (vol whale : Nat) (reason : String)
    (jup : Option String) (expOut : Option Nat) :
    (¬ position.status = PositionStatus.Active →
      create_rebalance_decision position config clock position_key
        decision_bump ntl ntu npl npu ver hash conf sent vol whale reason
        jup expOut = Except.error FlowError.PositionNotActive) ∧
    (position.status = PositionStatus.Active →
      clock.unix_timestamp - position.last_rebalance_timestamp <
        (position.min_rebalance_interval : Int) →
      create_rebalance_decision position config clock position_key
        decision_bump ntl ntu npl npu ver hash conf sent vol whale reason
        jup expOut = Except.error FlowError.RebalanceTooFrequent) ∧
    (position.status = PositionStatus.Active →
      (position.min_rebalance_interval : Int) ≤
        clock.unix_timestamp - position.last_rebalance_timestamp →
      ¬ (ntl < ntu ∧ npl < npu) →
      create_rebalance_decision position config clock position_key
        decision_bump ntl ntu npl npu ver hash conf sent vol whale reason
        jup expOut = Except.error FlowError.InvalidPriceRange) ∧
    (position.status = PositionStatus.Active →
      (position.min_rebalance_interval : Int) ≤
        clock.unix_timestamp - position.last_rebalance_timestamp →
      ntl < ntu → npl < npu →
      ∃ d, create_rebalance_decision position config clock position_key
        decision_bump ntl ntu npl npu ver hash conf sent vol whale reason
        jup expOut = Except.ok (d, [])) := by
  refine ⟨?_, ?_, ?_, ?_⟩
  · intro hact
    unfold create_rebalance_decision
    rw [if_pos hact]
  · intro hact hlt
    unfold create_rebalance_decision
    rw [if_neg (by simp [hact]),
      if_pos (by simpa [ge_iff_le] using not_le.mpr hlt)]
  · intro hact hge hnr
    unfold create_rebalance_decision
    rw [if_neg (by simp [hact]), if_neg (by simp [ge_iff_le, hge])]
    by_cases ht : ntl < ntu
    · have hp : ¬ npl < npu := fun hp => hnr ⟨ht, hp⟩
      rw [if_neg (by simp [ht]), if_pos (by simpa using hp)]
    · rw [if_pos (by simpa using ht)]
  · intro hact hge ht hp
    exact (create_rebalance_decision_guards position config clock
      position_key decision_bump ntl ntu npl npu ver hash conf sent vol
      whale reason jup expOut hact hge).2 ht hp

/-- A position whose last rebalance was only 1000 seconds before
`baseClock`, inside its 3600-second minimum interval. -/
def c4Position : LiquidityPosition :=
  { basePosition with last_rebalance_timestamp := 99000 }

/-- C4 witness: the ordering theorem applied to a concrete rate-limited
propose (active position, 1000 < 3600 seconds elapsed). -/
theorem c4_witness :
    create_rebalance_decision c4Position baseConfig baseClock 7 0 (-50) 50
        1050 1900 emptyText [] 9000 0 0 0 emptyText none none =
      Except.error FlowError.RebalanceTooFrequent :=
  (c4_propose_precondition_order c4Position baseConfig baseClock 7 0 (-50)
    50 1050 1900 emptyText [] 9000 0 0 0 emptyText none none).2.1 rfl
    (by decide)

/-! ## Claim C5 -/

/-- A position whose rebalance counter sits at the `u32` maximum, so the
next increment would wrap. -/
def c5Position : LiquidityPosition :=
  { basePosition with rebalance_count := 4294967295 }

/-- C5 counterexample: when the rebalance counter would wrap, the `unwrap`
on `checked_add` makes the call abort (`FlowError.Abort`, a Rust run-time
abort) — it does NOT fail with a `CounterOverflow` program error; indeed
the source error enum `XLiquidityEngineError` has no such variant.  (The
carried state also shows the range/timestamp writes that textually precede
the counter bump in the handler body.) -/
theorem c5_counterexample :
    execute_rebalance c5Position baseDecision baseConfig baseClock 7 50
        none none benignEnv =
      Except.error (FlowError.Abort,
        { c5Position with
            current_tick_lower := -50
            current_tick_upper := 50
            current_price_lower := 1050
            current_price_upper := 1900
            last_rebalance_slot := 500
            last_rebalance_timestamp := 100000 },
        baseDecision) := rfl

/-- C5 amended: when execute succeeds the commit performs exactly the
spec'd writes — the position adopts the decision's tick and price range,
`last_rebalance_slot`/`last_rebalance_timestamp` become now, the counter
is incremented through checked arithmetic (so it only ever increases, and
a wrap never commits: the `unwrap` aborts instead of returning a
CounterOverflow error), and the decision becomes Executed with
`executed_at = now`. -/
theorem c5_amended_commit_effects (position : LiquidityPosition)
    (decision : RebalanceDecision) (config : ProtocolConfig)
    (clock : Clock) (position_key : Pubkey) (slip : Nat)
    (approver : Option Pubkey) (sig : Option String) (env : VenueEnv)
    (pos' : LiquidityPosition) (dec' : RebalanceDecision)
    (evs : List AuditEvent)
    (h : execute_rebalance position decision config clock position_key
      slip approver sig env = Except.ok (pos', dec', evs)) :
    pos'.current_tick_lower = decision.new_tick_lower ∧
    pos'.current_tick_upper = decision.new_tick_upper ∧
    pos'.current_price_lower = decision.new_price_lower ∧
    pos'.current_price_upper = decision.new_price_upper ∧
    pos'.last_rebalance_slot = clock.slot ∧
    pos'.last_rebalance_timestamp = clock.unix_timestamp ∧
    pos'.rebalance_count = position.rebalance_count + 1 ∧
    position.rebalance_count < pos'.rebalance_count ∧
    dec'.execution_status = ExecutionStatus.Executed ∧
    dec'.executed_at = some clock.unix_timestamp := by
  obtain ⟨-, h2, h3, h4, h5, h6, h7, -, h9, -, h11, h12, -, -⟩ :=
    execute_rebalance_ok_inv h
  exact ⟨h2, h3, h4, h5, h6, h7, h9, by omega, h11, h12⟩

/-- The position as committed by a successful execute of `baseDecision`
against `basePosition` at `baseClock`. -/
def c5CommittedPosition : LiquidityPosition :=
  { basePosition with
      current_tick_lower := -50
      current_tick_upper := 50
      current_price_lower := 1050
      current_price_upper := 1900
      last_rebalance_slot := 500
      last_rebalance_timestamp := 100000
      rebalance_count := 1
      updated_at := 100000 }

/-- The decision as committed by that same successful execute. -/
def c5ExecutedDecision : RebalanceDecision :=
  { baseDecision with
      execution_status := ExecutionStatus.Executed
      executed_at := some 100000 }

/-- C5 amended, witness: a concrete successful execute, with the commit
theorem applied to it (the counter strictly increased). -/
theorem c5_amended_witness :
    execute_rebalance basePosition baseDecision baseConfig baseClock 7 50
        none none benignEnv =
      Except.ok (c5CommittedPosition, c5ExecutedDecision,
        [{ event_type := AuditEventType.Rebalanced
           position := some 7
           user := 1 }]) ∧
    basePosition.rebalance_count < c5CommittedPosition.rebalance_count := by
  have h : execute_rebalance basePosition baseDecision baseConfig
      baseClock 7 50 none none benignEnv =
      Except.ok (c5CommittedPosition, c5ExecutedDecision,
        [{ event_type := AuditEventType.Rebalanced
           position := some 7
           user := 1 }]) := rfl
  exact ⟨h, (c5_amended_commit_effects basePosition baseDecision
    baseConfig baseClock 7 50 none none benignEnv c5CommittedPosition
    c5ExecutedDecision _ h).2.2.2.2.2.2.2.1⟩

/-! ## Claim C6 -/

/-- C6: every precondition failure of `execute_rebalance` — decision not
Pending (InvalidExecutionStatus, the spec's InvalidState), required
approval missing or approver absent (HumanApprovalRequired, the spec's
ApprovalRequired), executor not the recorded approver (InvalidApprover),
or slippage tolerance above twice the config default (SlippageTooHigh) —
returns the corresponding error with the position and decision carried
through byte-for-byte unchanged; in particular a decision needing
approval with no approver recorded fails HumanApprovalRequired. -/
theorem c6_precondition_failures_leave_state_unchanged
    (position : LiquidityPosition) (decision : RebalanceDecision)
    (config : ProtocolConfig) (clock : Clock) (position_key : Pubkey)
    (slip : Nat) (approver : Option Pubkey) (sig : Option String)
    (env : VenueEnv) :
    (¬ decision.execution_status = ExecutionStatus.Pending →
      execute_rebalance position decision config clock position_key slip
        approver sig env =
        Except.error (FlowError.InvalidExecutionStatus, position,
          decision)) ∧
    (decision.execution_status = ExecutionStatus.Pending →
      decision.requires_human_approval = true →
      decision.human_approver = none →
      execute_rebalance position decision config clock position_key slip
        approver sig env =
        Except.error (FlowError.HumanApprovalRequired, position,
          decision)) ∧
    (decision.execution_status = ExecutionStatus.Pending →
      decision.requires_human_approval = true →
      ∀ hk, decision.human_approver = some hk → approver = none →
      execute_rebalance position decision config clock position_key slip
        approver sig env =
        Except.error (FlowError.HumanApprovalRequired, position,
          decision)) ∧
    (decision.execution_status = ExecutionStatus.Pending →
      decision.requires_human_approval = true →
      ∀ hk a, decision.human_approver = some hk → approver = some a →
      ¬ hk = a →
      execute_rebalance position decision config clock position_key slip
        approver sig env =
        Except.error (FlowError.InvalidApprover, position, decision)) ∧
    (decision.execution_status = ExecutionStatus.Pending →
      (decision.requires_human_approval = false ∨
        ∃ hk, decision.human_approver = some hk ∧ approver = some hk) →
      config.default_slippage_tolerance_bps * 2 < 65536 →
      config.default_slippage_tolerance_bps * 2 < slip →
      execute_rebalance position decision config clock position_key slip
        approver sig env =
        Except.error (FlowError.SlippageTooHigh, position, decision)) := by
  refine ⟨?_, ?_, ?_, ?_, ?_⟩
  · intro hst
    simp [execute_rebalance, exec_precheck, hst]
  · intro hst hreq hnone
    simp [execute_rebalance, exec_precheck, exec_approval_check, hst,
      hreq, hnone]
  · intro hst hreq hk hsome hnone
    simp [execute_rebalance, exec_precheck, exec_approval_check, hst,
      hreq, hsome, hnone]
  · intro hst hreq hk a hsome happ hne
    simp [execute_rebalance, exec_precheck, exec_approval_check, hst,
      hreq, hsome, happ, hne]
  · intro hst happ hw hgt
    have hmod : config.default_slippage_tolerance_bps * 2 % 65536 =
        config.default_slippage_tolerance_bps * 2 := Nat.mod_eq_of_lt hw
    rcases happ with hreq | ⟨hk, hsome, ha⟩
    · simp [execute_rebalance, exec_precheck, exec_approval_check,
        exec_slippage_check, hst, hreq, hmod, not_le.mpr hgt]
    · simp [execute_rebalance, exec_precheck, exec_approval_check,
        exec_slippage_check, hst, hsome, ha, hmod, not_le.mpr hgt]

/-- A pending decision that requires human approval but has no approver
recorded yet. -/
def c6Decision : RebalanceDecision :=
  { baseDecision with requires_human_approval := true }

/-- C6 witness: an execute on a decision needing approval with no
approver recorded fails HumanApprovalRequired with position and decision
unchanged. -/
theorem c6_witness :
    execute_rebalance basePosition c6Decision baseConfig baseClock 7 50
        none none benignEnv =
      Except.error (FlowError.HumanApprovalRequired, basePosition,
        c6Decision) :=
  (c6_precondition_failures_leave_state_unchanged basePosition c6Decision
    baseConfig baseClock 7 50 none none benignEnv).2.1 rfl rfl rfl

/-! ## Claim C7 -/

/-- C7: the propose rate limit is computed only against the position's
`last_rebalance_timestamp`.  After a successful propose — which never
mutates the position — a second propose against the same position at the
same clock cannot fail RebalanceTooFrequent (and with valid ranges it
succeeds), because `last_rebalance_timestamp` is written only by a
successful execute, which sets it to the execution time. -/
theorem c7_rate_limit_only_from_execution
    (position : LiquidityPosition) (config : ProtocolConfig)
    (clock : Clock) (position_key : Pubkey) (decision_bump : Nat)
    (ntl ntu : Int) (npl npu : Nat) (ver : String) (hash : List Nat)
    (conf : Nat) (sent : Int) (vol whale : Nat) (reason : String)
    (jup : Option String) (expOut : Option Nat)
    (d : RebalanceDecision) (evs : List AuditEvent)
    (h : create_rebalance_decision position config clock position_key
      decision_bump ntl ntu npl npu ver hash conf sent vol whale reason
      jup expOut = Except.ok (d, evs)) :
    (∀ (decision_bump2 : Nat) (ntl2 ntu2 : Int) (npl2 npu2 : Nat)
      (ver2 : String) (hash2 : List Nat) (conf2 : Nat) (sent2 : Int)
      (vol2 whale2 : Nat) (reason2 : String) (jup2 : Option String)
      (expOut2 : Option Nat),
      create_rebalance_decision position config clock position_key
        decision_bump2 ntl2 ntu2 npl2 npu2 ver2 hash2 conf2 sent2 vol2
        whale2 reason2 jup2 expOut2 ≠
        Except.error FlowError.RebalanceTooFrequent ∧
      (ntl2 < ntu2 → npl2 < npu2 →
        ∃ d2, create_rebalance_decision position config clock position_key
          decision_bump2 ntl2 ntu2 npl2 npu2 ver2 hash2 conf2 sent2 vol2
          whale2 reason2 jup2 expOut2 = Except.ok (d2, []))) ∧
    (∀ (pos : LiquidityPosition) (dec : RebalanceDecision)
      (cfg : ProtocolConfig) (clk : Clock) (pk : Pubkey) (sl : Nat)
      (appr : Option Pubkey) (sg : Option String) (env : VenueEnv)
      (pos' : LiquidityPosition) (dec' : RebalanceDecision)
      (evs2 : List AuditEvent),
      execute_rebalance pos dec cfg clk pk sl appr sg env =
        Except.ok (pos', dec', evs2) →
      pos'.last_rebalance_timestamp = clk.unix_timestamp ∧
      pos'.last_rebalance_slot = clk.slot) := by
  obtain ⟨hact, hint, -, -, -, -, -⟩ := create_rebalance_decision_ok_inv h
  constructor
  · intro decision_bump2 ntl2 ntu2 npl2 npu2 ver2 hash2 conf2 sent2 vol2
      whale2 reason2 jup2 expOut2
    exact create_rebalance_decision_guards position config clock
      position_key decision_bump2 ntl2 ntu2 npl2 npu2 ver2 hash2 conf2
      sent2 vol2 whale2 reason2 jup2 expOut2 hact hint
  · intro pos dec cfg clk pk sl appr sg env pos' dec' evs2 hex
    have hinv := execute_rebalance_ok_inv hex
    exact ⟨hinv.2.2.2.2.2.2.1, hinv.2.2.2.2.2.1⟩

/-- C7 witness: a concrete successful propose, after which a second
propose on the same (unchanged) position at the same clock is not
rate-limited. -/
theorem c7_witness :
    create_rebalance_decision basePosition baseConfig baseClock 7 0 (-50)
        50 1050 1900 emptyText [] 9000 0 0 0 emptyText none none =
      Except.ok ({ baseDecision with created_at := 100000 },
        ([] : List AuditEvent)) ∧
    create_rebalance_decision basePosition baseConfig baseClock 7 1 (-40)
        40 1100 1800 emptyText [] 9000 0 0 0 emptyText none none ≠
      Except.error FlowError.RebalanceTooFrequent := by
  have h : create_rebalance_decision basePosition baseConfig baseClock 7 0
      (-50) 50 1050 1900 emptyText [] 9000 0 0 0 emptyText none none =
      Except.ok ({ baseDecision with created_at := 100000 },
        ([] : List AuditEvent)) := rfl
  exact ⟨h, ((c7_rate_limit_only_from_execution basePosition baseConfig
    baseClock 7 0 (-50) 50 1050 1900 emptyText [] 9000 0 0 0 emptyText
    none none _ _ h).1 1 (-40) 40 1100 1800 emptyText [] 9000 0 0 0
    emptyText none none).1⟩

/-! ## Claim C8 -/

/-- C8: `requires_human_approval` is fixed at creation and invariant
thereafter: neither `approve_rebalance` nor `execute_rebalance` —
succeeding or failing — ever changes its value (and no other handler
writes decisions at all). -/
theorem c8_requires_flag_immutable :
    (∀ (d : RebalanceDecision) (k : Pubkey) (clk : Clock)
      (d' : RebalanceDecision) (evs : List AuditEvent),
      approve_rebalance d k clk = Except.ok (d', evs) →
      d'.requires_human_approval = d.requires_human_approval) ∧
    (∀ (d : RebalanceDecision) (k : Pubkey) (clk : Clock) (e : FlowError)
      (d' : RebalanceDecision),
      approve_rebalance d k clk = Except.error (e, d') →
      d'.requires_human_approval = d.requires_human_approval) ∧
    (∀ (position : LiquidityPosition) (decision : RebalanceDecision)
      (config : ProtocolConfig) (clock : Clock) (position_key : Pubkey)
      (slip : Nat) (approver : Option Pubkey) (sig : Option String)
      (env : VenueEnv) (pos' : LiquidityPosition)
      (dec' : RebalanceDecision) (evs : List AuditEvent),
      execute_rebalance position decision config clock position_key slip
        approver sig env = Except.ok (pos', dec', evs) →
      dec'.requires_human_approval = decision.requires_human_approval) ∧
    (∀ (position : LiquidityPosition) (decision : RebalanceDecision)
      (config : ProtocolConfig) (clock : Clock) (position_key : Pubkey)
      (slip : Nat) (approver : Option Pubkey) (sig : Option String)
      (env : VenueEnv) (e : FlowError) (pos' : LiquidityPosition)
      (dec' : RebalanceDecision),
      execute_rebalance position decision config clock position_key slip
        approver sig env = Except.error (e, pos', dec') →
      dec'.requires_human_approval = decision.requires_human_approval) := by
  refine ⟨?_, ?_, ?_, ?_⟩
  · intro d k clk d' evs h
    unfold approve_rebalance at h
    split at h
    · exact Except.noConfusion h
    · split at h
      · exact Except.noConfusion h
      · injection h with h
        injection h with hd hevs
        subst hd
        rfl
  · intro d k clk e d' h
    unfold approve_rebalance at h
    split at h
    · injection h with h
      injection h with he hd
      subst hd
      rfl
    · split at h
      · injection h with h
        injection h with he hd
        subst hd
        rfl
      · exact Except.noConfusion h
  · intro position decision config clock position_key slip approver sig
      env pos' dec' evs h
    exact (execute_rebalance_ok_inv h).2.2.2.2.2.2.2.2.2.2.2.2.1
  · intro position decision config clock position_key slip approver sig
      env e pos' dec' h
    exact execute_rebalance_error_requires h

/-- C8 witness: the invariant applied to a concrete successful approval
of `c6Decision`. -/
theorem c8_witness :
    approve_rebalance c6Decision 3 baseClock =
      Except.ok
        ({ c6Decision with
            human_approver := some 3
            approval_timestamp := some (100000 : Int) },
          [{ event_type := AuditEventType.HumanApprovalGranted
             position := some 7
             user := 3 }]) ∧
    ({ c6Decision with
        human_approver := some 3
        approval_timestamp := some (100000 : Int) }
      : RebalanceDecision).requires_human_approval =
      c6Decision.requires_human_approval := by
  have h : approve_rebalance c6Decision 3 baseClock =
      Except.ok
        ({ c6Decision with
            human_approver := some 3
            approval_timestamp := some (100000 : Int) },
          [{ event_type := AuditEventType.HumanApprovalGranted
             position := some 7
             user := 3 }]) := rfl
  exact ⟨h, c8_requires_flag_immutable.1 c6Decision 3 baseClock _ _ h⟩

/-- A venue-helper failure surfaces as InvalidFacilitator or an external
CPI failure — never as an approval error. -/
theorem VenueFailure.toError_kinds (f : VenueFailure) :
    f.toError = FlowError.InvalidFacilitator ∨
    f.toError = FlowError.External := by
  cases f <;> simp [VenueFailure.toError]

/-- The swap section can only fail with SlippageTooHigh,
InvalidFacilitator or an external CPI failure. -/
theorem exec_swap_phase_error_kinds
    {position : LiquidityPosition} {decision : RebalanceDecision}
    {config : ProtocolConfig} {slip : Nat} {sig : Option String}
    {env : VenueEnv} {e : FlowError} {d1 : RebalanceDecision}
    (h : exec_swap_phase position decision config slip sig env =
      Except.error (e, d1)) :
    e = FlowError.SlippageTooHigh ∨ e = FlowError.InvalidFacilitator ∨
    e = FlowError.External := by
  unfold exec_swap_phase at h
  repeat' split at h
  all_goals
    first
    | exact Except.noConfusion h
    | (injection h with h; injection h with he hd; cases he;
        first
        | exact Or.inl rfl
        | exact Or.inr (VenueFailure.toError_kinds _))

/-- The Raydium section can only fail with an external CPI failure. -/
theorem exec_raydium_phase_error_kind
    {position : LiquidityPosition} {approver : Option Pubkey}
    {env : VenueEnv} {e : FlowError}
    (h : exec_raydium_phase position approver env = some e) :
    e = FlowError.External := by
  unfold exec_raydium_phase at h
  repeat' split at h
  all_goals
    first
    | exact Option.noConfusion h
    | (injection h with h; exact h.symm)

/-- When the decision does not require human approval, no failure of
`execute_rebalance` is an approval error. -/
theorem execute_rebalance_error_kinds_no_approval
    {position : LiquidityPosition} {decision : RebalanceDecision}
    {config : ProtocolConfig} {clock : Clock} {position_key : Pubkey}
    {slip : Nat} {approver : Option Pubkey} {sig : Option String}
    {env : VenueEnv} {e : FlowError} {p' : LiquidityPosition}
    {d' : RebalanceDecision}
    (hr : decision.requires_human_approval = false)
    (h : execute_rebalance position decision config clock position_key
      slip approver sig env = Except.error (e, p', d')) :
    ¬ e = FlowError.HumanApprovalRequired ∧
    ¬ e = FlowError.InvalidApprover := by
  unfold execute_rebalance at h
  split at h
  · rename_i e0 hpre
    injection h with h
    injection h with he h2
    cases he
    unfold exec_precheck exec_approval_check exec_slippage_check at hpre
    simp only [hr, Bool.false_eq_true, if_false] at hpre
    split at hpre
    · split at hpre
      · exact Option.noConfusion hpre
      · injection hpre with hpre
        cases hpre
        exact ⟨by simp, by simp⟩
    · injection hpre with hpre
      cases hpre
      exact ⟨by simp, by simp⟩
  · split at h
    · rename_i e0 d1 hswap
      injection h with h
      injection h with he h2
      cases he
      rcases exec_swap_phase_error_kinds hswap with h1 | h1 | h1 <;>
        (cases h1; exact ⟨by simp, by simp⟩)
    · rename_i d1 hswap
      split at h
      · rename_i e0 hray
        injection h with h
        injection h with he h2
        cases he
        cases exec_raydium_phase_error_kind hray
        exact ⟨by simp, by simp⟩
      · unfold exec_commit at h
        split at h
        · injection h with h
          injection h with he h2
          cases he
          exact ⟨by simp, by simp⟩
        · exact Except.noConfusion h

/-! ## Claim C10 -/

/-- `basePosition` moved to the Raydium venue. -/
def c10Position : LiquidityPosition :=
  { basePosition with dex := DexType.Raydium }

/-- A venue environment with the Raydium accounts supplied whose
increase-liquidity CPI fails. -/
def c10Env : VenueEnv :=
  { jupiterSwap :=
      Except.ok
        { executed := false
          actual_slippage_bps := none
          actual_amount_out := none }
    raydiumAccountsProvided := true
    raydiumDecreaseOk := true
    raydiumIncreaseOk := false }

/-- C10 counterexample: on a Pending decision with
`requires_human_approval = false`, the optional approver account is NOT
entirely ignored — for a Raydium position with the Raydium accounts
supplied, the handler forwards the approver to the venue CPIs as the
owner signer, so the same call fails when an approver is present (the
CPI runs and fails) yet commits when the approver is absent (the CPI is
skipped). -/
theorem c10_counterexample :
    execute_rebalance c10Position baseDecision baseConfig baseClock 7 50
        (some 5) none c10Env =
      Except.error (FlowError.External, c10Position, baseDecision) ∧
    execute_rebalance c10Position baseDecision baseConfig baseClock 7 50
        none none c10Env =
      Except.ok
        ({ c10Position with
            current_tick_lower := -50
            current_tick_upper := 50
            current_price_lower := 1050
            current_price_upper := 1900
            last_rebalance_slot := 500
            last_rebalance_timestamp := 100000
            rebalance_count := 1
            updated_at := 100000 },
          { baseDecision with
              execution_status := ExecutionStatus.Executed
              executed_at := some 100000 },
          [{ event_type := AuditEventType.Rebalanced
             position := some 7
             user := 1 }]) :=
  ⟨rfl, rfl⟩

/-- C10 amended: for a Pending decision with
`requires_human_approval = false`, `execute_rebalance` performs no
identity or authorization check on the caller — the approval branch is
skipped (no HumanApprovalRequired or InvalidApprover failure can arise)
and no position-owner signature is demanded; outside the Raydium CPI path
(non-Raydium venue, or Raydium accounts not supplied) the optional
approver account is entirely ignored, while on the Raydium CPI path it is
forwarded to the venue CPIs as the owner signer (not checked against any
recorded identity). -/
theorem c10_amended_no_auth_check_when_not_required
    (position : LiquidityPosition) (decision : RebalanceDecision)
    (config : ProtocolConfig) (clock : Clock) (position_key : Pubkey)
    (slip : Nat) (sig : Option String) (env : VenueEnv)
    (hp : decision.execution_status = ExecutionStatus.Pending)
    (hr : decision.requires_human_approval = false) :
    (∀ (approver : Option Pubkey) (e : FlowError)
      (p' : LiquidityPosition) (d' : RebalanceDecision),
      execute_rebalance position decision config clock position_key slip
        approver sig env = Except.error (e, p', d') →
      ¬ e = FlowError.HumanApprovalRequired ∧
      ¬ e = FlowError.InvalidApprover) ∧
    (¬ position.dex = DexType.Raydium →
      ∀ a1 a2 : Option Pubkey,
      execute_rebalance position decision config clock position_key slip
        a1 sig env =
      execute_rebalance position decision config clock position_key slip
        a2 sig env) ∧
    (env.raydiumAccountsProvided = false →
      ∀ a1 a2 : Option Pubkey,
      execute_rebalance position decision config clock position_key slip
        a1 sig env =
      execute_rebalance position decision config clock position_key slip
        a2 sig env) := by
  have happ : ∀ a : Option Pubkey,
      exec_approval_check decision a = none := by
    intro a
    simp [exec_approval_check, hr]
  have hpre : ∀ a : Option Pubkey,
      exec_precheck decision config slip a =
        exec_slippage_check config slip := by
    intro a
    unfold exec_precheck
    rw [happ a, if_pos hp]
  refine ⟨?_, ?_, ?_⟩
  · intro approver e p' d' h
    exact execute_rebalance_error_kinds_no_approval hr h
  · intro hdex a1 a2
    have hray : ∀ a : Option Pubkey,
        exec_raydium_phase position a env = none := by
      intro a
      unfold exec_raydium_phase
      rw [if_neg hdex]
    unfold execute_rebalance
    simp only [hpre, hray]
  · intro hacc a1 a2
    have hray : ∀ a : Option Pubkey,
        exec_raydium_phase position a env = none := by
      intro a
      unfold exec_raydium_phase
      rw [hacc]
      simp
    unfold execute_rebalance
    simp only [hpre, hray]

/-- C10 amended, witness: on a non-Raydium position the outcome of a
concrete execute is identical with and without an approver account. -/
theorem c10_amended_witness :
    execute_rebalance basePosition baseDecision baseConfig baseClock 7 50
        (some 5) none benignEnv =
      execute_rebalance basePosition baseDecision baseConfig baseClock 7
        50 none none benignEnv :=
  (c10_amended_no_auth_check_when_not_required basePosition baseDecision
    baseConfig baseClock 7 50 none benignEnv rfl rfl).2.1 (by decide)
    (some 5) none
